import Mathlib

/-!
# Verification of the webhook→kickoff relay (`webhook_server.py`, `slack_app.py`)

This file gives a shallow embedding of the two HTTP relay handlers of the
repository and proves the claims of the spec about them.

Modelling conventions:
* JSON values are the inductive `Json`; Python `dict` access (`d[k]`,
  `d.get(k)`, `d.get(k, default)`) is modelled by `Json.getItem`,
  `Json.dictGet` and `Json.dictGetD`, raising `PyErr.keyError` /
  `PyErr.typeError` / `PyErr.attrError` exactly where Python raises
  `KeyError` / `TypeError` / `AttributeError`.
* Python truthiness (`if not payload`, `if challenge`, `if text`,
  `if not bot_id`) is `Json.truthy`.
* The raw request body is a `String`; HMAC-SHA256 (an external library,
  `hashlib`/`hmac`) is abstracted as an arbitrary hex-digest function
  `hmacHex : String → String → String` (secret → body → hex digest), passed
  as an explicit argument.
* An outbound POST to the kickoff service (`requests.post`) is recorded as a
  `KickoffCall`; the downstream network outcome is an oracle `NetResult`.
* A handler returns its Flask response together with the list of outbound
  kickoff calls recorded while handling the request (for the Slack handler,
  the list of texts handed to background dispatch threads).
-/

/-- JSON values, as produced by the Flask `request.json` property. -/
inductive Json where
  | null
  | bool (b : Bool)
  | num (n : Int)
  | str (s : String)
  | arr (elems : List Json)
  | obj (fields : List (String × Json))

/-- Python exceptions raised by the subscript / attribute operations used in
the handlers. -/
inductive PyErr where
  | keyError (k : String)
  | typeError
  | attrError
deriving DecidableEq, Repr

namespace Json

/-- Python truthiness of a JSON value (`bool(x)`), as used by
`if not payload`, `if challenge`, `if text and not bot_id`. -/
def truthy : Json → Bool
  | .null => false
  | .bool b => b
  | .num n => n != 0
  | .str s => s != ""
  | .arr elems => !elems.isEmpty
  | .obj fields => !fields.isEmpty

/-- Python `x[k]` for a string key: a `dict` lookup raising `KeyError` when
the key is absent, and `TypeError` on any non-dict value. -/
def getItem : Json → String → Except PyErr Json
  | .obj fields, k =>
    match fields.lookup k with
    | some v => .ok v
    | none => .error (.keyError k)
  | _, _ => .error .typeError

/-- Python `x.get(k)` on a value expected to be a `dict`: `None` when the key
is absent, `AttributeError` when `x` is not a dict. -/
def dictGet : Json → String → Except PyErr Json
  | .obj fields, k =>
    match fields.lookup k with
    | some v => .ok v
    | none => .ok .null
  | _, _ => .error .attrError

/-- Python `x.get(k, default)`: the default is used only when the key is
absent; `AttributeError` when `x` is not a dict. -/
def dictGetD : Json → String → Json → Except PyErr Json
  | .obj fields, k, dflt =>
    match fields.lookup k with
    | some v => .ok v
    | none => .ok dflt
  | _, _, _ => .error .attrError

/-- Python `x == s` for a string literal `s`: true exactly on the equal
string (Python `==` across types is `False`). -/
def isStr : Json → String → Bool
  | .str t, s => t = s
  | _, _ => false

/-- Whether `x[:7]` succeeds in Python: slicing is defined on strings and
lists, `TypeError` otherwise. -/
def sliceable : Json → Bool
  | .str _ => true
  | .arr _ => true
  | _ => false

end Json

/-- An HTTP response body: `jsonify(...)` produces `json`, a plain string
return produces `text`, `Response(status=...)` produces `empty`. -/
inductive RespBody where
  | json (j : Json)
  | text (s : String)
  | empty

/-- An HTTP response: status code and body. -/
structure HttpResp where
  status : Nat
  body : RespBody

/-- One outbound POST to the kickoff endpoint (`requests.post(KICKOFF_URL,
headers=..., json=payload, timeout=30)`).  The constant `accept` /
`Content-Type` headers are omitted; `authorization` is the
`Authorization` header value. -/
structure KickoffCall where
  url : String
  authorization : String
  payload : Json

/-- Outcome of the downstream `requests.post` + `raise_for_status()` +
`response.json()` sequence: a 2xx response with JSON body, a 2xx response
whose body is not JSON (so `response.json()` raises), or a
`RequestException` (network error, timeout, or non-2xx status). -/
inductive NetResult where
  | ok (respJson : Json)
  | badJson
  | err (msg : String)

/-- Shorthand for `jsonify({"status": s, "message": m}), code`. -/
def statusMsgResp (code : Nat) (s m : String) : HttpResp :=
  { status := code, body := .json (.obj [("status", .str s), ("message", .str m)]) }

/-! ## `webhook_server.py` — the GitHub push relay -/

namespace WebhookServer

/-- The 40-character zero hash that GitHub sends as `before`/`after` for
branch creation/deletion. -/
def zeroHash : String := "0000000000000000000000000000000000000000"

/-- The crew name constant, `"ComponentDocumentationCrew"`. -/
def KICKOFF_CREW_NAME : String := "ComponentDocumentationCrew"

/-- Module-level configuration read from the environment at import time.
`KICKOFF_URL` has a default, so it is always a string; the two secrets may be
unset (`os.environ.get` returns `None`). -/
structure Config where
  github_secret : Option String
  kickoff_token : Option String
  kickoff_url : String

/-- One inbound `POST /webhook` request: raw body (`request.data`), the
`X-Hub-Signature-256` and `X-GitHub-Event` headers, and the result of
`request.json` (`none` when the body is not valid JSON, so that accessing
`request.json` raises). -/
structure GhRequest where
  body : String
  signature : Option String
  event : Option String
  json : Option Json

/-- The function `verify_signature(payload_body, signature_header)`.  The
HMAC-SHA256 hex
digest (external `hmac`/`hashlib` library) is abstracted as `hmacHex`;
`hmac.compare_digest` is (constant-time) string equality.  The Python
checks `if not signature_header` / `if not GITHUB_SECRET` are false on
`None` and on the empty string. -/
def verify_signature (hmacHex : String → String → String) (GITHUB_SECRET : Option String)
    (payload_body : String) (signature_header : Option String) : Bool :=
  match signature_header with
  | none => false
  | some sig =>
    if sig = "" then false
    else
      match GITHUB_SECRET with
      | none => false
      | some secret =>
        if secret = "" then false
        else decide (("sha256=" ++ hmacHex secret payload_body) = sig)

/-- The function `trigger_crew_kickoff(repo_url, ref, before, after)`.
Returns the
`(success, result)` pair of the Python function together with the list of
outbound POSTs performed.  The log line before the POST slices
`before[:7]`/`after[:7]`; a `TypeError` there is caught by the bare
`except Exception` and no POST happens.  The interpolated text of a caught
exception is elided to a fixed prefix of the real message. -/
def trigger_crew_kickoff (cfg : Config) (net : NetResult)
    (repo_url ref before after : Json) : (Bool × Json) × List KickoffCall :=
  match cfg.kickoff_token with
  | none => ((false, .str "Kickoff token not configured on server."), [])
  | some tok =>
    if tok = "" then ((false, .str "Kickoff token not configured on server."), [])
    else if !before.sliceable || !after.sliceable then
      ((false, .str "An unexpected error occurred"), [])
    else
      let payload : Json := .obj [
        ("crew", .str KICKOFF_CREW_NAME),
        ("inputs", .obj [
          ("repository_url", repo_url), ("ref", ref),
          ("before", before), ("after", after), ("verbose", .bool true)]),
        ("wait", .bool false)]
      let call : KickoffCall :=
        { url := cfg.kickoff_url, authorization := "Bearer " ++ tok, payload := payload }
      match net with
      | .ok j => ((true, j), [call])
      | .badJson => ((false, .str "An unexpected error occurred"), [call])
      | .err m => ((false, .str ("Failed to trigger crew: " ++ m)), [call])

/-- The message of the HTTP 400 answer for a `KeyError` while extracting the
`push` fields; the f-string interpolates the exception, and `str` of a
`KeyError` prints the key between single quotes. -/
def missingKeyMsg (k : String) : String :=
  "Invalid \x27push\x27 payload structure, missing key: \x27" ++ k ++ "\x27"

/-- The two `except` clauses of the `push` branch: `KeyError` ⇒ HTTP 400
naming the key; any other exception (`TypeError` from subscripting a
non-dict, `AttributeError`) ⇒ HTTP 500. -/
def pushExtractionError : PyErr → HttpResp × List KickoffCall
  | .keyError k => (statusMsgResp 400 "error" (missingKeyMsg k), [])
  | _ => (statusMsgResp 500 "error" "An unexpected error occurred", [])

/-- The push-event branch of `handle_github_webhook`:
extract `ref`, `before`, `after`, `repository.html_url` (in that order),
ignore zero-hash pushes, and otherwise trigger the kickoff.  The log line
before the trigger slices `before_commit[:7]`/`after_commit[:7]`; a
`TypeError` there is caught by the bare `except Exception` (HTTP 500). -/
def handle_push (cfg : Config) (net : NetResult) (payload : Json) :
    HttpResp × List KickoffCall :=
  match payload.getItem "ref" with
  | .error e => pushExtractionError e
  | .ok ref =>
  match payload.getItem "before" with
  | .error e => pushExtractionError e
  | .ok before_commit =>
  match payload.getItem "after" with
  | .error e => pushExtractionError e
  | .ok after_commit =>
  match payload.getItem "repository" with
  | .error e => pushExtractionError e
  | .ok repository =>
  match repository.getItem "html_url" with
  | .error e => pushExtractionError e
  | .ok repo_url =>
  if before_commit.isStr zeroHash || after_commit.isStr zeroHash then
    (statusMsgResp 200 "ignored" "Ignoring push event for new/deleted branch.", [])
  else if !before_commit.sliceable || !after_commit.sliceable then
    (statusMsgResp 500 "error" "An unexpected error occurred", [])
  else
    match trigger_crew_kickoff cfg net repo_url ref before_commit after_commit with
    | ((true, result), calls) =>
      ({ status := 200, body := .json (.obj [
          ("status", .str "success"), ("message", .str "Crew kickoff triggered"),
          ("kickoff_response", result)]) }, calls)
    | ((false, result), calls) =>
      ({ status := 500, body := .json (.obj [
          ("status", .str "error"), ("message", .str "Failed to trigger crew kickoff"),
          ("details", result)]) }, calls)

/-- How an f-string prints the `X-GitHub-Event` header value: `None` when the
header is absent. -/
def eventTypeStr : Option String → String
  | some s => s
  | none => "None"

/-- The `POST /webhook` route handler `handle_github_webhook()`: signature
check,
JSON parsing (`request.json` failing ⇒ the caught-exception 400; a falsy
payload ⇒ the "Invalid JSON payload" 400), then dispatch on the event type. -/
def handle_github_webhook (hmacHex : String → String → String) (cfg : Config)
    (net : NetResult) (req : GhRequest) : HttpResp × List KickoffCall :=
  if !verify_signature hmacHex cfg.github_secret req.body req.signature then
    (statusMsgResp 403 "error" "Invalid signature", [])
  else
    match req.json with
    | none => (statusMsgResp 400 "error" "Could not parse JSON payload", [])
    | some payload =>
      if !payload.truthy then (statusMsgResp 400 "error" "Invalid JSON payload", [])
      else if req.event = some "push" then handle_push cfg net payload
      else if req.event = some "ping" then
        (statusMsgResp 200 "success" "Webhook received ping event successfully.", [])
      else
        (statusMsgResp 200 "ignored"
          ("Event type \x27" ++ eventTypeStr req.event ++ "\x27 not configured for trigger."), [])

end WebhookServer

/-! ## `slack_app.py` — the Slack event relay -/

namespace SlackApp

/-- The channel allow-list, a single channel identifier. -/
def allowed_channels : List String := ["C08NA2E9T0W"]

/-- The crew name constant, `"SalesCrew"`. -/
def KICKOFF_CREW_NAME : String := "SalesCrew"

/-- Module-level configuration.  In `slack_app.py` the `KICKOFF_URL` lookup
has no default (`os.environ.get("KICKOFF_URL",)`), so both values may be
`None`. -/
structure Config where
  kickoff_url : Option String
  kickoff_token : Option String

/-- The background-thread target `run_crew_async(slack_message_text)`:
returns the outbound POSTs it performs (none when the token or URL is unset
or empty, one otherwise; the downstream outcome is only logged). -/
def run_crew_async (cfg : Config) (slack_message_text : Json) : List KickoffCall :=
  match cfg.kickoff_token with
  | none => []
  | some tok =>
    if tok = "" then []
    else
      match cfg.kickoff_url with
      | none => []
      | some url =>
        if url = "" then []
        else
          [{ url := url, authorization := "Bearer " ++ tok,
             payload := .obj [
               ("crew", .str KICKOFF_CREW_NAME),
               ("inputs", .obj [
                 ("initial_message", slack_message_text), ("verbose", .bool true)]),
               ("wait", .bool false)] }]

/-- The Flask answer to an exception escaping a handler (`debug=False`). -/
def internalServerError : HttpResp := { status := 500, body := .text "Internal Server Error" }

/-- The `POST /slack/events` route handler `slack_events()`.  `req` is
`none` when
`request.is_json` is false.  The second component is the list of message
texts handed to background dispatch threads
(`threading.Thread(target=run_crew_async, args=(text,)).start()`).  A
`.get` on a non-dict JSON body raises `AttributeError`, which escapes the
handler (HTTP 500). -/
def slack_events (req : Option Json) : HttpResp × List Json :=
  match req with
  | none => ({ status := 400, body := .text "Request must be JSON" }, [])
  | some payload =>
    match payload.dictGet "type" with
    | .error _ => (internalServerError, [])
    | .ok ty =>
      if ty.isStr "url_verification" then
        match payload.dictGet "challenge" with
        | .error _ => (internalServerError, [])
        | .ok challenge =>
          if challenge.truthy then
            ({ status := 200, body := .json (.obj [("challenge", challenge)]) }, [])
          else ({ status := 400, body := .text "Challenge missing" }, [])
      else if ty.isStr "event_callback" then
        match payload.dictGetD "event" (.obj []) with
        | .error _ => (internalServerError, [])
        | .ok event =>
        match event.dictGet "type" with
        | .error _ => (internalServerError, [])
        | .ok message_type =>
        match event.dictGet "text" with
        | .error _ => (internalServerError, [])
        | .ok text =>
        match event.dictGet "bot_id" with
        | .error _ => (internalServerError, [])
        | .ok bot_id =>
        match payload.dictGet "channel" with
        | .error _ => (internalServerError, [])
        | .ok channel =>
        if allowed_channels.any (fun c => channel.isStr c) then
          if message_type.isStr "message" && text.truthy && !bot_id.truthy then
            ({ status := 200, body := .empty }, [text])
          else ({ status := 200, body := .empty }, [])
        else ({ status := 400, body := .text "Unhandled event type" }, [])
      else ({ status := 400, body := .text "Unhandled event type" }, [])

/-- All outbound kickoff POSTs eventually performed for one inbound Slack
request: each dispatched thread runs `run_crew_async` on its text. -/
def slackKickoffPosts (cfg : Config) (req : Option Json) : List KickoffCall :=
  ((slack_events req).2.map (run_crew_async cfg)).flatten

end SlackApp

/-- A lowercase hexadecimal digit. -/
def isHexDigitChar (c : Char) : Bool := c.isDigit || ('a' ≤ c && c ≤ 'f')

/-- Whether a string is a 40-character lowercase hex digest. -/
def isHex40 (s : String) : Bool := s.length = 40 && s.data.all isHexDigitChar

/-- The `inputs` object of the payload of a sole recorded kickoff call
(`Json.null` when the call list does not have exactly one element or its
payload has no `inputs` object). -/
def soleCallInputs (calls : List KickoffCall) : Json :=
  match calls with
  | [c] =>
    match c.payload.getItem "inputs" with
    | .ok v => v
    | .error _ => .null
  | _ => .null

/-! ## Helper lemmas -/

theorem sha256_expected_ne_empty (x : String) : ("sha256=" ++ x) ≠ "" := by
  intro h
  have h' := congrArg String.length h
  simp [String.length_append] at h'
  exact (by decide : "sha256=".length ≠ 0) h'.1

/-- A successful verification of the genuine signature. -/
theorem verify_signature_of_valid (hmacHex : String → String → String) (s B : String)
    (hs : s ≠ "") :
    WebhookServer.verify_signature hmacHex (some s) B (some ("sha256=" ++ hmacHex s B)) = true := by
  unfold WebhookServer.verify_signature
  simp [sha256_expected_ne_empty, hs]

@[simp] theorem pushExtractionError_calls (e : PyErr) :
    (WebhookServer.pushExtractionError e).2 = [] := by
  cases e <;> rfl

/-- At most one POST is performed by `trigger_crew_kickoff`. -/
theorem trigger_calls_length (cfg : WebhookServer.Config) (net : NetResult)
    (repo_url ref before after : Json) :
    (WebhookServer.trigger_crew_kickoff cfg net repo_url ref before after).2.length ≤ 1 := by
  unfold WebhookServer.trigger_crew_kickoff
  split
  · simp
  · split
    · simp
    · split
      · simp
      · split <;> simp

/-- At most one POST is performed by `run_crew_async`. -/
theorem run_crew_async_length (cfg : SlackApp.Config) (t : Json) :
    (SlackApp.run_crew_async cfg t).length ≤ 1 := by
  unfold SlackApp.run_crew_async
  split
  · simp
  · split
    · simp
    · split
      · simp
      · split <;> simp

theorem string_append_left_cancel {p a b : String} (h : p ++ a = p ++ b) : a = b := by
  have h' := congrArg String.data h
  simp [String.data_append] at h'
  exact String.ext h'

/-- A JSON object with a successful key lookup is truthy (non-empty dict). -/
theorem truthy_obj_of_lookup {fields : List (String × Json)} {k : String} {v : Json}
    (h : fields.lookup k = some v) : Json.truthy (.obj fields) = true := by
  cases fields with
  | nil => simp [List.lookup] at h
  | cons p l => simp [Json.truthy]

/-- A `push` payload whose `before` or `after` is the zero hash never reaches
`trigger_crew_kickoff`. -/
theorem handle_push_zero_hash_calls (cfg : WebhookServer.Config) (net : NetResult)
    (fields : List (String × Json))
    (hzero : fields.lookup "before" = some (.str WebhookServer.zeroHash) ∨
      fields.lookup "after" = some (.str WebhookServer.zeroHash)) :
    (WebhookServer.handle_push cfg net (.obj fields)).2 = [] := by
  unfold WebhookServer.handle_push
  simp only [Json.getItem]
  split
  next => simp
  next ref heqr =>
  split
  next => simp
  next before heqb =>
  split
  next => simp
  next after heqa =>
  split
  next => simp
  next repo heqrep =>
  split
  next => simp
  next repo_url hequ =>
  split
  next => rfl
  next hz =>
  exfalso
  apply hz
  rcases hzero with h | h
  · rw [h] at heqb
    injection heqb with hb
    subst hb
    simp [Json.isStr]
  · rw [h] at heqa
    injection heqa with ha
    subst ha
    simp [Json.isStr]

/-- A non-empty JSON object is truthy. -/
theorem truthy_obj_of_ne_nil {fields : List (String × Json)} (h : fields ≠ []) :
    Json.truthy (.obj fields) = true := by
  cases fields with
  | nil => exact absurd rfl h
  | cons p l => simp [Json.truthy]

/-- Under a valid signature, a truthy JSON object body and the `push` event
header, the route handler is the `push` branch. -/
theorem handler_reduces_to_push (hmacHex : String → String → String)
    (cfg : WebhookServer.Config) (net : NetResult) (req : WebhookServer.GhRequest)
    (s : String) (fields : List (String × Json))
    (hsec : cfg.github_secret = some s) (hs : s ≠ "")
    (hsig : req.signature = some ("sha256=" ++ hmacHex s req.body))
    (hev : req.event = some "push")
    (hjson : req.json = some (.obj fields))
    (htr : Json.truthy (.obj fields) = true) :
    WebhookServer.handle_github_webhook hmacHex cfg net req =
      WebhookServer.handle_push cfg net (.obj fields) := by
  have hv := verify_signature_of_valid hmacHex s req.body hs
  rw [WebhookServer.handle_github_webhook, hsig, hsec, hv]
  simp only [Bool.not_true, Bool.false_eq_true, if_false, hjson, htr, hev, if_pos]

/-- With a configured token and sliceable commit values,
`trigger_crew_kickoff` performs exactly the one POST built from its
arguments, whatever the downstream outcome. -/
theorem trigger_calls_eq (cfg : WebhookServer.Config) (net : NetResult)
    (repo_url ref before after : Json) (t : String)
    (htok : cfg.kickoff_token = some t) (ht : t ≠ "")
    (hbs : before.sliceable = true) (has : after.sliceable = true) :
    (WebhookServer.trigger_crew_kickoff cfg net repo_url ref before after).2 =
      [{ url := cfg.kickoff_url, authorization := "Bearer " ++ t,
         payload := .obj [
           ("crew", .str WebhookServer.KICKOFF_CREW_NAME),
           ("inputs", .obj [
             ("repository_url", repo_url), ("ref", ref),
             ("before", before), ("after", after), ("verbose", .bool true)]),
           ("wait", .bool false)] }] := by
  unfold WebhookServer.trigger_crew_kickoff
  rw [htok]
  cases net <;> simp [ht, hbs, has]

/-- With a configured token and a successful downstream call,
`trigger_crew_kickoff` returns `(True, response.json())`. -/
theorem trigger_ok_result (cfg : WebhookServer.Config)
    (repo_url ref before after : Json) (t : String) (j : Json)
    (htok : cfg.kickoff_token = some t) (ht : t ≠ "")
    (hbs : before.sliceable = true) (has : after.sliceable = true) :
    (WebhookServer.trigger_crew_kickoff cfg (.ok j) repo_url ref before after).1 =
      (true, j) := by
  unfold WebhookServer.trigger_crew_kickoff
  rw [htok]
  simp [ht, hbs, has]

theorem dictGet_of_lookup {fields : List (String × Json)} {k : String} {v : Json}
    (h : fields.lookup k = some v) : Json.dictGet (.obj fields) k = .ok v := by
  simp [Json.dictGet, h]

theorem dictGet_of_lookup_none {fields : List (String × Json)} {k : String}
    (h : fields.lookup k = none) : Json.dictGet (.obj fields) k = .ok .null := by
  simp [Json.dictGet, h]

theorem dictGetD_of_lookup {fields : List (String × Json)} {k : String} {v d : Json}
    (h : fields.lookup k = some v) : Json.dictGetD (.obj fields) k d = .ok v := by
  simp [Json.dictGetD, h]

theorem dictGetD_of_lookup_none {fields : List (String × Json)} {k : String} {d : Json}
    (h : fields.lookup k = none) : Json.dictGetD (.obj fields) k d = .ok d := by
  simp [Json.dictGetD, h]

/-- A `.get` on a dict value never raises. -/
theorem dictGet_obj_ok (fields : List (String × Json)) (k : String) :
    ∃ v, Json.dictGet (.obj fields) k = .ok v := by
  cases h : fields.lookup k with
  | none => exact ⟨.null, dictGet_of_lookup_none h⟩
  | some v => exact ⟨v, dictGet_of_lookup h⟩

/-- The `push` branch performs at most one POST, whatever the payload. -/
theorem handle_push_calls_length (cfg : WebhookServer.Config) (net : NetResult)
    (payload : Json) : (WebhookServer.handle_push cfg net payload).2.length ≤ 1 := by
  unfold WebhookServer.handle_push
  split
  next e heq => simp
  next ref heq =>
  split
  next e heq2 => simp
  next before heq2 =>
  split
  next e heq3 => simp
  next after heq3 =>
  split
  next e heq4 => simp
  next repo heq4 =>
  split
  next e heq5 => simp
  next repo_url heq5 =>
  split
  next hz => simp
  next hz =>
  split
  next hsl => simp
  next hsl =>
  split
  next result calls htr =>
    have h := trigger_calls_length cfg net repo_url ref before after
    rw [htr] at h
    simpa using h
  next result calls htr =>
    have h := trigger_calls_length cfg net repo_url ref before after
    rw [htr] at h
    simpa using h

/-- The GitHub route handler performs at most one POST, whatever the
request. -/
theorem handle_github_calls_length (hmacHex : String → String → String)
    (cfg : WebhookServer.Config) (net : NetResult) (req : WebhookServer.GhRequest) :
    (WebhookServer.handle_github_webhook hmacHex cfg net req).2.length ≤ 1 := by
  unfold WebhookServer.handle_github_webhook
  split
  next => simp
  next =>
  split
  next => simp
  next payload hj =>
  split
  next => simp
  next =>
  split
  next => exact handle_push_calls_length cfg net payload
  next => split <;> simp

/-- The Slack route handler starts at most one dispatch thread. -/
theorem slack_texts_length (req : Option Json) :
    (SlackApp.slack_events req).2.length ≤ 1 := by
  unfold SlackApp.slack_events
  repeat' split
  all_goals simp

/-- One inbound Slack request leads to at most one outbound POST. -/
theorem slackKickoffPosts_length (scfg : SlackApp.Config) (sreq : Option Json) :
    (SlackApp.slackKickoffPosts scfg sreq).length ≤ 1 := by
  unfold SlackApp.slackKickoffPosts
  cases hl : (SlackApp.slack_events sreq).2 with
  | nil => simp
  | cons t ts =>
    have h2 := slack_texts_length sreq
    rw [hl] at h2
    cases ts with
    | nil => simpa using run_crew_async_length scfg t
    | cons t2 ts2 => simp at h2

/-! ## Claims -/

/-- C2: `verify_signature(B, H)` accepts exactly the `"sha256="`-prefixed
lowercase hex HMAC-SHA256 digest of the body `B` keyed by the configured
secret `S`: it returns true iff `H` is that exact string; in particular it
accepts the genuine prefixed digest of `B` itself, and rejects the prefixed
digest of any body `B'` whose digest differs from that of `B`. -/
theorem verify_signature_correct (hmacHex : String → String → String)
    (S : String) (hS : S ≠ "") (B Bp : String) (H : Option String)
    (hdiff : hmacHex S Bp ≠ hmacHex S B) :
    (WebhookServer.verify_signature hmacHex (some S) B H = true ↔
      H = some ("sha256=" ++ hmacHex S B))
    ∧ WebhookServer.verify_signature hmacHex (some S) B
        (some ("sha256=" ++ hmacHex S B)) = true
    ∧ WebhookServer.verify_signature hmacHex (some S) B
        (some ("sha256=" ++ hmacHex S Bp)) = false := by
  refine ⟨?_, verify_signature_of_valid hmacHex S B hS, ?_⟩
  · cases H with
    | none => simp [WebhookServer.verify_signature]
    | some sig =>
      unfold WebhookServer.verify_signature
      by_cases hsig : sig = ""
      · subst hsig
        simp [hS]
        exact fun h => sha256_expected_ne_empty _ h.symm
      · simp [hsig, hS, eq_comm]
  · unfold WebhookServer.verify_signature
    simp [sha256_expected_ne_empty, hS]
    intro h
    exact hdiff (string_append_left_cancel h).symm

/-- Witness for C2 at a concrete digest function, secret and bodies. -/
theorem verify_signature_correct_witness :
    (WebhookServer.verify_signature (fun s b => s ++ b) (some "k") "a"
        (some "sha256=ka") = true ↔
      some "sha256=ka" = some ("sha256=" ++ (fun s b : String => s ++ b) "k" "a"))
    ∧ WebhookServer.verify_signature (fun s b => s ++ b) (some "k") "a"
        (some ("sha256=" ++ (fun s b : String => s ++ b) "k" "a")) = true
    ∧ WebhookServer.verify_signature (fun s b => s ++ b) (some "k") "a"
        (some ("sha256=" ++ (fun s b : String => s ++ b) "k" "b")) = false :=
  verify_signature_correct (fun s b => s ++ b) "k" (by decide) "a" "b"
    (some "sha256=ka") (by decide)

/-- C3: an absent `X-Hub-Signature-256` header, an unset `GITHUB_SECRET`,
or a header value different from the expected `"sha256="`-prefixed digest of
the raw body makes `POST /webhook` answer HTTP 403 with no outbound kickoff
POST, whatever the body and event type. -/
theorem webhook_rejects_bad_signature (hmacHex : String → String → String)
    (cfg : WebhookServer.Config) (net : NetResult) (req : WebhookServer.GhRequest)
    (h : req.signature = none ∨ cfg.github_secret = none ∨
      ∀ s, cfg.github_secret = some s →
        req.signature ≠ some ("sha256=" ++ hmacHex s req.body)) :
    WebhookServer.handle_github_webhook hmacHex cfg net req =
      (statusMsgResp 403 "error" "Invalid signature", []) := by
  have hv : WebhookServer.verify_signature hmacHex cfg.github_secret req.body
      req.signature = false := by
    unfold WebhookServer.verify_signature
    cases hsig : req.signature with
    | none => rfl
    | some sig =>
      by_cases h1 : sig = ""
      · simp [h1]
      · cases hsec : cfg.github_secret with
        | none => simp [h1]
        | some s =>
          by_cases h2 : s = ""
          · simp [h1, h2]
          · rcases h with h | h | h
            · simp [h] at hsig
            · simp [h] at hsec
            · have hne := h s hsec
              rw [hsig] at hne
              simp [h1, h2]
              intro heq
              exact hne (congrArg some heq.symm)
  simp [WebhookServer.handle_github_webhook, hv]

/-- C5: a `push` event whose `before` or `after` field is the 40-character
zero hash never triggers a dispatch call, whatever the other fields; and when
the required fields are all present (and the signature valid), the response
is HTTP 200 with status `ignored`. -/
theorem push_zero_hash_ignored (hmacHex : String → String → String)
    (cfg : WebhookServer.Config) (net : NetResult) (req : WebhookServer.GhRequest)
    (fields : List (String × Json))
    (hjson : req.json = some (.obj fields)) (hev : req.event = some "push")
    (hzero : fields.lookup "before" = some (.str WebhookServer.zeroHash) ∨
      fields.lookup "after" = some (.str WebhookServer.zeroHash)) :
    (WebhookServer.handle_github_webhook hmacHex cfg net req).2 = []
    ∧ (∀ s, cfg.github_secret = some s → s ≠ "" →
        req.signature = some ("sha256=" ++ hmacHex s req.body) →
        (fields.lookup "ref").isSome →
        (fields.lookup "before").isSome →
        (fields.lookup "after").isSome →
        ∀ rf, fields.lookup "repository" = some (.obj rf) →
          (rf.lookup "html_url").isSome →
          (WebhookServer.handle_github_webhook hmacHex cfg net req).1 =
            statusMsgResp 200 "ignored" "Ignoring push event for new/deleted branch.") := by
  have htr : Json.truthy (.obj fields) = true := by
    rcases hzero with h | h <;> exact truthy_obj_of_lookup h
  constructor
  · unfold WebhookServer.handle_github_webhook
    split
    · rfl
    · rw [hjson]
      simp only [htr, Bool.not_true, Bool.false_eq_true, if_false, hev, if_pos]
      exact handle_push_zero_hash_calls cfg net fields hzero
  · intro s hsec hs hsig href hrb hra rf hrep hru
    obtain ⟨rv, hrv⟩ := Option.isSome_iff_exists.mp href
    obtain ⟨bv, hbv⟩ := Option.isSome_iff_exists.mp hrb
    obtain ⟨av, hav⟩ := Option.isSome_iff_exists.mp hra
    obtain ⟨uv, huv⟩ := Option.isSome_iff_exists.mp hru
    have hv := verify_signature_of_valid hmacHex s req.body hs
    rw [WebhookServer.handle_github_webhook, hsig, hsec, hv]
    simp only [Bool.not_true, Bool.false_eq_true, if_false, hjson, htr, hev, if_pos]
    rcases hzero with h | h
    · rw [h] at hbv
      injection hbv with hb
      subst hb
      simp [WebhookServer.handle_push, Json.getItem, hrv, h, hav, hrep, huv, Json.isStr]
    · rw [h] at hav
      injection hav with ha
      subst ha
      simp [WebhookServer.handle_push, Json.getItem, hrv, hbv, h, hrep, huv, Json.isStr]

/-- Witness for C5 at a concrete zero-hash push payload. -/
theorem push_zero_hash_ignored_witness :
    (WebhookServer.handle_github_webhook (fun _ _ => "d") ⟨some "k", some "t", "U"⟩
        (.ok .null) ⟨"B", some "sha256=d", some "push", some (.obj
          [("ref", .str "r"), ("before", .str WebhookServer.zeroHash),
           ("after", .str "a"), ("repository", .obj [("html_url", .str "u")])])⟩).2 = []
    ∧ (WebhookServer.handle_github_webhook (fun _ _ => "d") ⟨some "k", some "t", "U"⟩
        (.ok .null) ⟨"B", some "sha256=d", some "push", some (.obj
          [("ref", .str "r"), ("before", .str WebhookServer.zeroHash),
           ("after", .str "a"), ("repository", .obj [("html_url", .str "u")])])⟩).1 =
        statusMsgResp 200 "ignored" "Ignoring push event for new/deleted branch." :=
  ⟨(push_zero_hash_ignored (fun _ _ => "d") ⟨some "k", some "t", "U"⟩ (.ok .null)
      ⟨"B", some "sha256=d", some "push", some (.obj
        [("ref", .str "r"), ("before", .str WebhookServer.zeroHash),
         ("after", .str "a"), ("repository", .obj [("html_url", .str "u")])])⟩
      [("ref", .str "r"), ("before", .str WebhookServer.zeroHash),
       ("after", .str "a"), ("repository", .obj [("html_url", .str "u")])]
      rfl rfl (Or.inl rfl)).1,
   (push_zero_hash_ignored (fun _ _ => "d") ⟨some "k", some "t", "U"⟩ (.ok .null)
      ⟨"B", some "sha256=d", some "push", some (.obj
        [("ref", .str "r"), ("before", .str WebhookServer.zeroHash),
         ("after", .str "a"), ("repository", .obj [("html_url", .str "u")])])⟩
      [("ref", .str "r"), ("before", .str WebhookServer.zeroHash),
       ("after", .str "a"), ("repository", .obj [("html_url", .str "u")])]
      rfl rfl (Or.inl rfl)).2 "k" rfl (by decide) (by decide) rfl rfl rfl
      [("html_url", .str "u")] rfl rfl⟩

/-- C6 (amended): a `push` event with a valid signature whose JSON body is a
non-empty object lacking `ref`, `before`, `after`, `repository` or (inside a
`repository` object) `html_url` is answered with HTTP 400 naming the first
missing key, and no kickoff POST is made. -/
theorem push_missing_key_400 (hmacHex : String → String → String)
    (cfg : WebhookServer.Config) (net : NetResult) (req : WebhookServer.GhRequest)
    (s : String) (fields : List (String × Json))
    (hsec : cfg.github_secret = some s) (hs : s ≠ "")
    (hsig : req.signature = some ("sha256=" ++ hmacHex s req.body))
    (hev : req.event = some "push")
    (hjson : req.json = some (.obj fields)) :
    (fields ≠ [] → fields.lookup "ref" = none →
      WebhookServer.handle_github_webhook hmacHex cfg net req =
        (statusMsgResp 400 "error" (WebhookServer.missingKeyMsg "ref"), []))
    ∧ (∀ r, fields.lookup "ref" = some r → fields.lookup "before" = none →
      WebhookServer.handle_github_webhook hmacHex cfg net req =
        (statusMsgResp 400 "error" (WebhookServer.missingKeyMsg "before"), []))
    ∧ (∀ r b, fields.lookup "ref" = some r → fields.lookup "before" = some b →
      fields.lookup "after" = none →
      WebhookServer.handle_github_webhook hmacHex cfg net req =
        (statusMsgResp 400 "error" (WebhookServer.missingKeyMsg "after"), []))
    ∧ (∀ r b a, fields.lookup "ref" = some r → fields.lookup "before" = some b →
      fields.lookup "after" = some a → fields.lookup "repository" = none →
      WebhookServer.handle_github_webhook hmacHex cfg net req =
        (statusMsgResp 400 "error" (WebhookServer.missingKeyMsg "repository"), []))
    ∧ (∀ r b a rf, fields.lookup "ref" = some r → fields.lookup "before" = some b →
      fields.lookup "after" = some a → fields.lookup "repository" = some (.obj rf) →
      rf.lookup "html_url" = none →
      WebhookServer.handle_github_webhook hmacHex cfg net req =
        (statusMsgResp 400 "error" (WebhookServer.missingKeyMsg "html_url"), [])) := by
  refine ⟨?_, ?_, ?_, ?_, ?_⟩
  · intro hne hr
    rw [handler_reduces_to_push hmacHex cfg net req s fields hsec hs hsig hev hjson
      (truthy_obj_of_ne_nil hne)]
    simp [WebhookServer.handle_push, Json.getItem, hr, WebhookServer.pushExtractionError]
  · intro r hr hb
    rw [handler_reduces_to_push hmacHex cfg net req s fields hsec hs hsig hev hjson
      (truthy_obj_of_lookup hr)]
    simp [WebhookServer.handle_push, Json.getItem, hr, hb, WebhookServer.pushExtractionError]
  · intro r b hr hb ha
    rw [handler_reduces_to_push hmacHex cfg net req s fields hsec hs hsig hev hjson
      (truthy_obj_of_lookup hr)]
    simp [WebhookServer.handle_push, Json.getItem, hr, hb, ha,
      WebhookServer.pushExtractionError]
  · intro r b a hr hb ha hrep
    rw [handler_reduces_to_push hmacHex cfg net req s fields hsec hs hsig hev hjson
      (truthy_obj_of_lookup hr)]
    simp [WebhookServer.handle_push, Json.getItem, hr, hb, ha, hrep,
      WebhookServer.pushExtractionError]
  · intro r b a rf hr hb ha hrep hu
    rw [handler_reduces_to_push hmacHex cfg net req s fields hsec hs hsig hev hjson
      (truthy_obj_of_lookup hr)]
    simp [WebhookServer.handle_push, Json.getItem, hr, hb, ha, hrep, hu,
      WebhookServer.pushExtractionError]

/-- Witness for C6 at a concrete payload missing `before`. -/
theorem push_missing_key_400_witness :
    WebhookServer.handle_github_webhook (fun _ _ => "d") ⟨some "k", some "t", "U"⟩
      (.ok .null) ⟨"B", some "sha256=d", some "push",
        some (.obj [("ref", .str "r"), ("after", .str "a")])⟩ =
      (statusMsgResp 400 "error" (WebhookServer.missingKeyMsg "before"), []) :=
  (push_missing_key_400 (fun _ _ => "d") ⟨some "k", some "t", "U"⟩ (.ok .null)
      ⟨"B", some "sha256=d", some "push",
        some (.obj [("ref", .str "r"), ("after", .str "a")])⟩
      "k" [("ref", .str "r"), ("after", .str "a")]
      rfl (by decide) (by decide) rfl rfl).2.1 (.str "r") rfl rfl

/-- Counterexample for C6 as stated: a valid-signature `push` whose body is
the empty JSON object lacks all required keys, yet the HTTP 400 answer
carries the generic invalid-payload message, which names no key. -/
theorem push_missing_key_counterexample :
    WebhookServer.handle_github_webhook (fun _ _ => "d") ⟨some "k", some "t", "U"⟩
      (.ok .null) ⟨"B", some "sha256=d", some "push", some (.obj [])⟩ =
      (statusMsgResp 400 "error" "Invalid JSON payload", [])
    ∧ "Invalid JSON payload" ≠ WebhookServer.missingKeyMsg "ref"
    ∧ "Invalid JSON payload" ≠ WebhookServer.missingKeyMsg "before"
    ∧ "Invalid JSON payload" ≠ WebhookServer.missingKeyMsg "after"
    ∧ "Invalid JSON payload" ≠ WebhookServer.missingKeyMsg "repository"
    ∧ "Invalid JSON payload" ≠ WebhookServer.missingKeyMsg "html_url" :=
  ⟨rfl, by decide, by decide, by decide, by decide, by decide⟩

/-- C4 (amended): a `push` with valid signature, string `ref`, 40-hex
non-zero `before`/`after` and `repository.html_url`, on a server with a
configured `KICKOFF_TOKEN`, sends exactly one POST to the kickoff URL with
bearer-token auth and JSON body `{crew, inputs, wait: false}` whose inputs
are `{repository_url, ref, before, after}` plus `verbose: true`; when the
downstream call succeeds, the inbound response is HTTP 200 with the
downstream JSON echoed under `kickoff_response`. -/
theorem push_dispatches_kickoff (hmacHex : String → String → String)
    (cfg : WebhookServer.Config) (net : NetResult) (req : WebhookServer.GhRequest)
    (s t : String) (fields rf : List (String × Json)) (r b a u : String)
    (hsec : cfg.github_secret = some s) (hs : s ≠ "")
    (htok : cfg.kickoff_token = some t) (ht : t ≠ "")
    (hsig : req.signature = some ("sha256=" ++ hmacHex s req.body))
    (hev : req.event = some "push")
    (hjson : req.json = some (.obj fields))
    (hr : fields.lookup "ref" = some (.str r))
    (hb : fields.lookup "before" = some (.str b))
    (ha : fields.lookup "after" = some (.str a))
    (hrep : fields.lookup "repository" = some (.obj rf))
    (hu : rf.lookup "html_url" = some (.str u))
    (hbhex : isHex40 b = true) (hbz : b ≠ WebhookServer.zeroHash)
    (hahex : isHex40 a = true) (haz : a ≠ WebhookServer.zeroHash) :
    (WebhookServer.handle_github_webhook hmacHex cfg net req).2 =
      [{ url := cfg.kickoff_url, authorization := "Bearer " ++ t,
         payload := .obj [
           ("crew", .str "ComponentDocumentationCrew"),
           ("inputs", .obj [
             ("repository_url", .str u), ("ref", .str r),
             ("before", .str b), ("after", .str a), ("verbose", .bool true)]),
           ("wait", .bool false)] }]
    ∧ ∀ j, net = .ok j →
        (WebhookServer.handle_github_webhook hmacHex cfg net req).1 =
          { status := 200, body := .json (.obj [
              ("status", .str "success"), ("message", .str "Crew kickoff triggered"),
              ("kickoff_response", j)]) } := by
  have hred := handler_reduces_to_push hmacHex cfg net req s fields hsec hs hsig hev hjson
    (truthy_obj_of_lookup hr)
  have hpush : WebhookServer.handle_push cfg net (.obj fields) =
      match WebhookServer.trigger_crew_kickoff cfg net (.str u) (.str r) (.str b) (.str a) with
      | ((true, result), calls) =>
        ({ status := 200, body := .json (.obj [
            ("status", .str "success"), ("message", .str "Crew kickoff triggered"),
            ("kickoff_response", result)]) }, calls)
      | ((false, result), calls) =>
        ({ status := 500, body := .json (.obj [
            ("status", .str "error"), ("message", .str "Failed to trigger crew kickoff"),
            ("details", result)]) }, calls) := by
    unfold WebhookServer.handle_push
    simp [Json.getItem, hr, hb, ha, hrep, hu, Json.isStr, hbz, haz, Json.sliceable]
  constructor
  · rw [hred, hpush]
    have hcalls := trigger_calls_eq cfg net (.str u) (.str r) (.str b) (.str a) t htok ht
      rfl rfl
    rcases htr : WebhookServer.trigger_crew_kickoff cfg net (.str u) (.str r) (.str b)
      (.str a) with ⟨⟨succ, result⟩, calls⟩
    rw [htr] at hcalls
    cases succ <;> simpa [WebhookServer.KICKOFF_CREW_NAME] using hcalls
  · intro j hnet
    subst hnet
    rw [hred, hpush]
    have hok := trigger_ok_result cfg (.str u) (.str r) (.str b) (.str a) t j htok ht
      rfl rfl
    rcases htr : WebhookServer.trigger_crew_kickoff cfg (.ok j) (.str u) (.str r) (.str b)
      (.str a) with ⟨⟨succ, result⟩, calls⟩
    rw [htr] at hok
    injection hok with h1 h2
    subst h1
    subst h2
    rfl

/-- Witness for C4 at the spec's end-to-end scenario. -/
theorem push_dispatches_kickoff_witness :
    (WebhookServer.handle_github_webhook (fun _ _ => "d") ⟨some "k", some "t", "U"⟩
        (.ok (.str "J")) ⟨"B", some "sha256=d", some "push", some (.obj
          [("ref", .str "refs/heads/main"),
           ("before", .str "a1a1a1a1a1a1a1a1a1a1a1a1a1a1a1a1a1a1a1a1"),
           ("after", .str "b2b2b2b2b2b2b2b2b2b2b2b2b2b2b2b2b2b2b2b2"),
           ("repository", .obj [("html_url", .str "https://example/org/repo")])])⟩).2 =
      [{ url := "U", authorization := "Bearer t",
         payload := .obj [
           ("crew", .str "ComponentDocumentationCrew"),
           ("inputs", .obj [
             ("repository_url", .str "https://example/org/repo"),
             ("ref", .str "refs/heads/main"),
             ("before", .str "a1a1a1a1a1a1a1a1a1a1a1a1a1a1a1a1a1a1a1a1"),
             ("after", .str "b2b2b2b2b2b2b2b2b2b2b2b2b2b2b2b2b2b2b2b2"),
             ("verbose", .bool true)]),
           ("wait", .bool false)] }]
    ∧ (WebhookServer.handle_github_webhook (fun _ _ => "d") ⟨some "k", some "t", "U"⟩
        (.ok (.str "J")) ⟨"B", some "sha256=d", some "push", some (.obj
          [("ref", .str "refs/heads/main"),
           ("before", .str "a1a1a1a1a1a1a1a1a1a1a1a1a1a1a1a1a1a1a1a1"),
           ("after", .str "b2b2b2b2b2b2b2b2b2b2b2b2b2b2b2b2b2b2b2b2"),
           ("repository", .obj [("html_url", .str "https://example/org/repo")])])⟩).1 =
      { status := 200, body := .json (.obj [
          ("status", .str "success"), ("message", .str "Crew kickoff triggered"),
          ("kickoff_response", .str "J")]) } :=
  ⟨(push_dispatches_kickoff (fun _ _ => "d") ⟨some "k", some "t", "U"⟩
      (.ok (.str "J")) ⟨"B", some "sha256=d", some "push", some (.obj
        [("ref", .str "refs/heads/main"),
         ("before", .str "a1a1a1a1a1a1a1a1a1a1a1a1a1a1a1a1a1a1a1a1"),
         ("after", .str "b2b2b2b2b2b2b2b2b2b2b2b2b2b2b2b2b2b2b2b2"),
         ("repository", .obj [("html_url", .str "https://example/org/repo")])])⟩
      "k" "t"
      [("ref", .str "refs/heads/main"),
       ("before", .str "a1a1a1a1a1a1a1a1a1a1a1a1a1a1a1a1a1a1a1a1"),
       ("after", .str "b2b2b2b2b2b2b2b2b2b2b2b2b2b2b2b2b2b2b2b2"),
       ("repository", .obj [("html_url", .str "https://example/org/repo")])]
      [("html_url", .str "https://example/org/repo")]
      "refs/heads/main" "a1a1a1a1a1a1a1a1a1a1a1a1a1a1a1a1a1a1a1a1"
      "b2b2b2b2b2b2b2b2b2b2b2b2b2b2b2b2b2b2b2b2" "https://example/org/repo"
      rfl (by decide) rfl (by decide) (by decide) rfl rfl rfl rfl rfl rfl rfl
      (by decide) (by decide) (by decide) (by decide)).1,
   (push_dispatches_kickoff (fun _ _ => "d") ⟨some "k", some "t", "U"⟩
      (.ok (.str "J")) ⟨"B", some "sha256=d", some "push", some (.obj
        [("ref", .str "refs/heads/main"),
         ("before", .str "a1a1a1a1a1a1a1a1a1a1a1a1a1a1a1a1a1a1a1a1"),
         ("after", .str "b2b2b2b2b2b2b2b2b2b2b2b2b2b2b2b2b2b2b2b2"),
         ("repository", .obj [("html_url", .str "https://example/org/repo")])])⟩
      "k" "t"
      [("ref", .str "refs/heads/main"),
       ("before", .str "a1a1a1a1a1a1a1a1a1a1a1a1a1a1a1a1a1a1a1a1"),
       ("after", .str "b2b2b2b2b2b2b2b2b2b2b2b2b2b2b2b2b2b2b2b2"),
       ("repository", .obj [("html_url", .str "https://example/org/repo")])]
      [("html_url", .str "https://example/org/repo")]
      "refs/heads/main" "a1a1a1a1a1a1a1a1a1a1a1a1a1a1a1a1a1a1a1a1"
      "b2b2b2b2b2b2b2b2b2b2b2b2b2b2b2b2b2b2b2b2" "https://example/org/repo"
      rfl (by decide) rfl (by decide) (by decide) rfl rfl rfl rfl rfl rfl rfl
      (by decide) (by decide) (by decide) (by decide)).2 (.str "J") rfl⟩

/-- Counterexample for C4 as stated: at the spec's own end-to-end scenario
the emitted `inputs` map also carries `verbose: true`, so it does not equal
the four-entry map the claim asserts. -/
theorem push_kickoff_inputs_counterexample :
    soleCallInputs (WebhookServer.handle_github_webhook (fun _ _ => "d")
        ⟨some "k", some "t", "U"⟩ (.ok (.str "J")) ⟨"B", some "sha256=d", some "push",
          some (.obj
            [("ref", .str "refs/heads/main"),
             ("before", .str "a1a1a1a1a1a1a1a1a1a1a1a1a1a1a1a1a1a1a1a1"),
             ("after", .str "b2b2b2b2b2b2b2b2b2b2b2b2b2b2b2b2b2b2b2b2"),
             ("repository", .obj [("html_url", .str "https://example/org/repo")])])⟩).2 =
      Json.obj [
        ("repository_url", .str "https://example/org/repo"),
        ("ref", .str "refs/heads/main"),
        ("before", .str "a1a1a1a1a1a1a1a1a1a1a1a1a1a1a1a1a1a1a1a1"),
        ("after", .str "b2b2b2b2b2b2b2b2b2b2b2b2b2b2b2b2b2b2b2b2"),
        ("verbose", .bool true)]
    ∧ soleCallInputs (WebhookServer.handle_github_webhook (fun _ _ => "d")
        ⟨some "k", some "t", "U"⟩ (.ok (.str "J")) ⟨"B", some "sha256=d", some "push",
          some (.obj
            [("ref", .str "refs/heads/main"),
             ("before", .str "a1a1a1a1a1a1a1a1a1a1a1a1a1a1a1a1a1a1a1a1"),
             ("after", .str "b2b2b2b2b2b2b2b2b2b2b2b2b2b2b2b2b2b2b2b2"),
             ("repository", .obj [("html_url", .str "https://example/org/repo")])])⟩).2 ≠
      Json.obj [
        ("repository_url", .str "https://example/org/repo"),
        ("ref", .str "refs/heads/main"),
        ("before", .str "a1a1a1a1a1a1a1a1a1a1a1a1a1a1a1a1a1a1a1a1"),
        ("after", .str "b2b2b2b2b2b2b2b2b2b2b2b2b2b2b2b2b2b2b2b2")] :=
  ⟨rfl, fun h =>
    (by simp : ¬ (Json.obj [
        ("repository_url", .str "https://example/org/repo"),
        ("ref", .str "refs/heads/main"),
        ("before", .str "a1a1a1a1a1a1a1a1a1a1a1a1a1a1a1a1a1a1a1a1"),
        ("after", .str "b2b2b2b2b2b2b2b2b2b2b2b2b2b2b2b2b2b2b2b2"),
        ("verbose", .bool true)] = Json.obj [
        ("repository_url", .str "https://example/org/repo"),
        ("ref", .str "refs/heads/main"),
        ("before", .str "a1a1a1a1a1a1a1a1a1a1a1a1a1a1a1a1a1a1a1a1"),
        ("after", .str "b2b2b2b2b2b2b2b2b2b2b2b2b2b2b2b2b2b2b2b2")])) h⟩

/-- Witness for C3 at a concrete request with an unset secret. -/
theorem webhook_rejects_bad_signature_witness :
    WebhookServer.handle_github_webhook (fun _ _ => "d") ⟨none, some "t", "U"⟩
      (.ok .null) ⟨"B", some "x", some "push", none⟩ =
      (statusMsgResp 403 "error" "Invalid signature", []) :=
  webhook_rejects_bad_signature (fun _ _ => "d") ⟨none, some "t", "U"⟩
    (.ok .null) ⟨"B", some "x", some "push", none⟩ (Or.inr (Or.inl rfl))

/-- C9 (amended): a JSON-object body of type `url_verification` carrying a
truthy `challenge` value `c` is answered HTTP 200 with body
`{"challenge": c}`; when `challenge` is absent or falsy the answer is
HTTP 400 ("Challenge missing"); no dispatch happens in any case. -/
theorem url_verification_challenge (fields : List (String × Json))
    (hty : fields.lookup "type" = some (.str "url_verification")) :
    (∀ c, fields.lookup "challenge" = some c → c.truthy = true →
      SlackApp.slack_events (some (.obj fields)) =
        ({ status := 200, body := .json (.obj [("challenge", c)]) }, []))
    ∧ (fields.lookup "challenge" = none →
      SlackApp.slack_events (some (.obj fields)) =
        ({ status := 400, body := .text "Challenge missing" }, []))
    ∧ (∀ c, fields.lookup "challenge" = some c → c.truthy = false →
      SlackApp.slack_events (some (.obj fields)) =
        ({ status := 400, body := .text "Challenge missing" }, [])) := by
  refine ⟨?_, ?_, ?_⟩
  · intro c hch hc
    unfold SlackApp.slack_events
    simp [dictGet_of_lookup hty, dictGet_of_lookup hch, Json.isStr, hc]
  · intro hch
    unfold SlackApp.slack_events
    simp [dictGet_of_lookup hty, dictGet_of_lookup_none hch, Json.isStr, Json.truthy]
  · intro c hch hc
    unfold SlackApp.slack_events
    simp [dictGet_of_lookup hty, dictGet_of_lookup hch, Json.isStr, hc]

/-- Witness for C9 at the spec's `{"type":"url_verification",
"challenge":"abc123"}` example. -/
theorem url_verification_challenge_witness :
    SlackApp.slack_events (some (.obj [("type", .str "url_verification"),
        ("challenge", .str "abc123")])) =
      ({ status := 200, body := .json (.obj [("challenge", .str "abc123")]) }, []) :=
  (url_verification_challenge
      [("type", .str "url_verification"), ("challenge", .str "abc123")] rfl).1
    (.str "abc123") rfl rfl

/-- Counterexample for C9 as stated: a `url_verification` body carrying the
(falsy) challenge value `""` is answered HTTP 400, not the claimed HTTP 200
echo. -/
theorem url_verification_falsy_challenge_counterexample :
    SlackApp.slack_events (some (.obj [("type", .str "url_verification"),
        ("challenge", .str "")])) =
      ({ status := 400, body := .text "Challenge missing" }, [])
    ∧ (400 : Nat) ≠ 200 :=
  ⟨rfl, by decide⟩

/-- C8 (amended): an `event_callback` whose inner `event` object carries a
truthy `bot_id` never reaches the background dispatch, whatever the other
fields. -/
theorem bot_id_never_dispatches (fields efields : List (String × Json)) (v : Json)
    (hty : fields.lookup "type" = some (.str "event_callback"))
    (hev : fields.lookup "event" = some (.obj efields))
    (hbot : efields.lookup "bot_id" = some v) (hv : v.truthy = true) :
    (SlackApp.slack_events (some (.obj fields))).2 = [] := by
  unfold SlackApp.slack_events
  obtain ⟨mt, hmt⟩ := dictGet_obj_ok efields "type"
  obtain ⟨tx, htx⟩ := dictGet_obj_ok efields "text"
  obtain ⟨chv, hchv⟩ := dictGet_obj_ok fields "channel"
  simp only [dictGet_of_lookup hty, dictGetD_of_lookup hev, dictGet_of_lookup hbot,
    hmt, htx, hchv, Json.isStr]
  repeat' split <;> simp_all

/-- Witness for C8 at a concrete bot message in the allowed channel. -/
theorem bot_id_never_dispatches_witness :
    (SlackApp.slack_events (some (.obj [("type", .str "event_callback"),
        ("channel", .str "C08NA2E9T0W"),
        ("event", .obj [("type", .str "message"), ("text", .str "hi"),
          ("bot_id", .str "B1")])]))).2 = [] :=
  bot_id_never_dispatches
    [("type", .str "event_callback"), ("channel", .str "C08NA2E9T0W"),
     ("event", .obj [("type", .str "message"), ("text", .str "hi"),
       ("bot_id", .str "B1")])]
    [("type", .str "message"), ("text", .str "hi"), ("bot_id", .str "B1")]
    (.str "B1") rfl rfl rfl rfl

/-- Counterexample for C8 as stated: with `bot_id` set to the (falsy) empty
string, the message is dispatched — the background thread is started with
the message text. -/
theorem bot_id_empty_dispatch_counterexample :
    (SlackApp.slack_events (some (.obj [("type", .str "event_callback"),
        ("channel", .str "C08NA2E9T0W"),
        ("event", .obj [("type", .str "message"), ("text", .str "hi"),
          ("bot_id", .str "")])]))).2 = [.str "hi"] := rfl

/-- C7 (amended): an `event_callback` JSON object whose nested `event` field
(if present) is an object and whose non-empty top-level `channel` is not in
the allow-list makes no dispatch call and is answered HTTP 400 ("Unhandled
event type"). -/
theorem disallowed_channel_no_dispatch (fields : List (String × Json)) (ch : String)
    (hty : fields.lookup "type" = some (.str "event_callback"))
    (hevshape : fields.lookup "event" = none ∨
      ∃ efields, fields.lookup "event" = some (.obj efields))
    (hchan : fields.lookup "channel" = some (.str ch))
    (hne : ch ≠ "") (hnal : ch ∉ SlackApp.allowed_channels) :
    SlackApp.slack_events (some (.obj fields)) =
      ({ status := 400, body := .text "Unhandled event type" }, []) := by
  have hnal' : ¬(ch = "C08NA2E9T0W") := by
    simpa [SlackApp.allowed_channels] using hnal
  unfold SlackApp.slack_events
  rcases hevshape with hev | ⟨efields, hev⟩
  · have h1 : Json.dictGet (.obj []) "type" = .ok .null := rfl
    have h2 : Json.dictGet (.obj []) "text" = .ok .null := rfl
    have h3 : Json.dictGet (.obj []) "bot_id" = .ok .null := rfl
    simp [dictGet_of_lookup hty, dictGetD_of_lookup_none hev,
      dictGet_of_lookup hchan, h1, h2, h3, Json.isStr,
      SlackApp.allowed_channels, hnal']
  · obtain ⟨mt, hmt⟩ := dictGet_obj_ok efields "type"
    obtain ⟨tx, htx⟩ := dictGet_obj_ok efields "text"
    obtain ⟨bi, hbi⟩ := dictGet_obj_ok efields "bot_id"
    simp [dictGet_of_lookup hty, dictGetD_of_lookup hev,
      dictGet_of_lookup hchan, hmt, htx, hbi, Json.isStr,
      SlackApp.allowed_channels, hnal']

/-- Witness for C7 at a concrete message in a channel outside the
allow-list. -/
theorem disallowed_channel_no_dispatch_witness :
    SlackApp.slack_events (some (.obj [("type", .str "event_callback"),
        ("channel", .str "CNOPE"),
        ("event", .obj [("type", .str "message"), ("text", .str "hi")])])) =
      ({ status := 400, body := .text "Unhandled event type" }, []) :=
  disallowed_channel_no_dispatch
    [("type", .str "event_callback"), ("channel", .str "CNOPE"),
     ("event", .obj [("type", .str "message"), ("text", .str "hi")])]
    "CNOPE" rfl
    (Or.inr ⟨[("type", .str "message"), ("text", .str "hi")], rfl⟩)
    rfl (by decide) (by decide)

/-- Counterexample for C7 as stated: the same disallowed-channel
`event_callback` is answered HTTP 400, not the claimed HTTP 200 (it still
triggers no dispatch). -/
theorem disallowed_channel_status_counterexample :
    (SlackApp.slack_events (some (.obj [("type", .str "event_callback"),
        ("channel", .str "CNOPE"),
        ("event", .obj [("type", .str "message"),
          ("text", .str "ship it")])]))).1.status = 400
    ∧ (400 : Nat) ≠ 200
    ∧ (SlackApp.slack_events (some (.obj [("type", .str "event_callback"),
        ("channel", .str "CNOPE"),
        ("event", .obj [("type", .str "message"),
          ("text", .str "ship it")])]))).2 = [] :=
  ⟨rfl, by decide, rfl⟩

/-- C10: an `event_callback` whose channel identifier appears only inside
the nested `event` object (no top-level `channel` key) is answered HTTP 400
("Unhandled event type") and never dispatched — the allow-list check reads
the top-level `channel` field — whatever the nested fields say. -/
theorem nested_channel_unhandled (fields efields : List (String × Json)) (c : Json)
    (hty : fields.lookup "type" = some (.str "event_callback"))
    (hchan : fields.lookup "channel" = none)
    (hev : fields.lookup "event" = some (.obj efields))
    (hnested : efields.lookup "channel" = some c) :
    SlackApp.slack_events (some (.obj fields)) =
      ({ status := 400, body := .text "Unhandled event type" }, [])
    ∧ ∀ scfg : SlackApp.Config,
        SlackApp.slackKickoffPosts scfg (some (.obj fields)) = [] := by
  have hmain : SlackApp.slack_events (some (.obj fields)) =
      ({ status := 400, body := .text "Unhandled event type" }, []) := by
    unfold SlackApp.slack_events
    obtain ⟨mt, hmt⟩ := dictGet_obj_ok efields "type"
    obtain ⟨tx, htx⟩ := dictGet_obj_ok efields "text"
    obtain ⟨bi, hbi⟩ := dictGet_obj_ok efields "bot_id"
    simp only [dictGet_of_lookup hty, dictGetD_of_lookup hev,
      dictGet_of_lookup_none hchan, hmt, htx, hbi, Json.isStr,
      SlackApp.allowed_channels]
    simp [Json.isStr]
  refine ⟨hmain, fun scfg => ?_⟩
  unfold SlackApp.slackKickoffPosts
  rw [hmain]
  simp

/-- Witness for C10 at a payload whose allow-listed channel sits only inside
the nested event. -/
theorem nested_channel_unhandled_witness :
    SlackApp.slack_events (some (.obj [("type", .str "event_callback"),
        ("event", .obj [("type", .str "message"), ("text", .str "hi"),
          ("channel", .str "C08NA2E9T0W")])])) =
      ({ status := 400, body := .text "Unhandled event type" }, [])
    ∧ SlackApp.slackKickoffPosts ⟨some "U", some "T"⟩
        (some (.obj [("type", .str "event_callback"),
          ("event", .obj [("type", .str "message"), ("text", .str "hi"),
            ("channel", .str "C08NA2E9T0W")])])) = [] :=
  ⟨(nested_channel_unhandled
      [("type", .str "event_callback"),
       ("event", .obj [("type", .str "message"), ("text", .str "hi"),
         ("channel", .str "C08NA2E9T0W")])]
      [("type", .str "message"), ("text", .str "hi"),
       ("channel", .str "C08NA2E9T0W")]
      (.str "C08NA2E9T0W") rfl rfl rfl rfl).1,
   (nested_channel_unhandled
      [("type", .str "event_callback"),
       ("event", .obj [("type", .str "message"), ("text", .str "hi"),
         ("channel", .str "C08NA2E9T0W")])]
      [("type", .str "message"), ("text", .str "hi"),
       ("channel", .str "C08NA2E9T0W")]
      (.str "C08NA2E9T0W") rfl rfl rfl rfl).2 ⟨some "U", some "T"⟩⟩

/-- C1: each inbound request (GitHub `POST /webhook` or Slack
`POST /slack/events`) emits at most one outbound kickoff POST, and rejected
or ignored requests — bad or missing signature, wrong event type, zero-hash
`before`/`after`, or a channel outside the allow-list — emit none. -/
theorem at_most_one_kickoff_per_request (hmacHex : String → String → String)
    (cfg : WebhookServer.Config) (net : NetResult) (req : WebhookServer.GhRequest)
    (scfg : SlackApp.Config) (sreq : Option Json) :
    ((WebhookServer.handle_github_webhook hmacHex cfg net req).2.length ≤ 1
     ∧ (WebhookServer.verify_signature hmacHex cfg.github_secret req.body
          req.signature = false →
        (WebhookServer.handle_github_webhook hmacHex cfg net req).2 = [])
     ∧ (req.event ≠ some "push" →
        (WebhookServer.handle_github_webhook hmacHex cfg net req).2 = [])
     ∧ (∀ fields, req.json = some (.obj fields) →
        (fields.lookup "before" = some (.str WebhookServer.zeroHash) ∨
         fields.lookup "after" = some (.str WebhookServer.zeroHash)) →
        (WebhookServer.handle_github_webhook hmacHex cfg net req).2 = []))
    ∧ ((SlackApp.slackKickoffPosts scfg sreq).length ≤ 1
     ∧ (∀ fields, sreq = some (.obj fields) →
        (∀ v, fields.lookup "type" = some v → v.isStr "event_callback" = false) →
        SlackApp.slackKickoffPosts scfg sreq = [])
     ∧ (∀ fields c, sreq = some (.obj fields) → fields.lookup "channel" = some c →
        SlackApp.allowed_channels.any (fun ch => c.isStr ch) = false →
        SlackApp.slackKickoffPosts scfg sreq = [])) := by
  refine ⟨⟨handle_github_calls_length hmacHex cfg net req, ?_, ?_, ?_⟩,
    slackKickoffPosts_length scfg sreq, ?_, ?_⟩
  · intro hv
    simp [WebhookServer.handle_github_webhook, hv]
  · intro hne
    unfold WebhookServer.handle_github_webhook
    split
    next => rfl
    next =>
    split
    next => rfl
    next payload hj =>
    split
    next => rfl
    next =>
    split <;> rfl
  · intro fields hjson hzero
    have htr : Json.truthy (.obj fields) = true := by
      rcases hzero with h | h <;> exact truthy_obj_of_lookup h
    unfold WebhookServer.handle_github_webhook
    split
    next => rfl
    next =>
    rw [hjson]
    simp only [htr, Bool.not_true, Bool.false_eq_true, if_false]
    split
    next => exact handle_push_zero_hash_calls cfg net fields hzero
    next => split <;> rfl
  · intro fields hs hty
    have htexts : (SlackApp.slack_events (some (.obj fields))).2 = [] := by
      unfold SlackApp.slack_events
      cases hl : fields.lookup "type" with
      | none =>
        simp [dictGet_of_lookup_none hl, Json.isStr]
      | some v =>
        have hve := hty v hl
        simp only [dictGet_of_lookup hl]
        split
        next =>
          split
          next => rfl
          next c hc => split <;> rfl
        next =>
          rw [hve]
          simp
    unfold SlackApp.slackKickoffPosts
    rw [hs, htexts]
    simp
  · intro fields c hs hchan hc
    have htexts : (SlackApp.slack_events (some (.obj fields))).2 = [] := by
      unfold SlackApp.slack_events
      cases hl : fields.lookup "type" with
      | none => simp [dictGet_of_lookup_none hl, Json.isStr]
      | some v =>
        simp only [dictGet_of_lookup hl]
        split
        next =>
          split
          next => rfl
          next cch hcch => split <;> rfl
        next =>
        split
        next =>
          split
          next => rfl
          next ev hev =>
          split
          next => rfl
          next mt hmt =>
          split
          next => rfl
          next tx htx =>
          split
          next => rfl
          next bi hbi =>
          split
          next e hch =>
            rw [dictGet_of_lookup hchan] at hch
          next chv hch =>
            rw [dictGet_of_lookup hchan] at hch
            injection hch with hch
            subst hch
            simp [hc]
        next => rfl
    unfold SlackApp.slackKickoffPosts
    rw [hs, htexts]
    simp

/-- Witness for C1 at concrete rejected requests on both relays. -/
theorem at_most_one_kickoff_per_request_witness :
    (WebhookServer.handle_github_webhook (fun _ _ => "d") ⟨some "k", some "t", "U"⟩
        (.ok .null) ⟨"B", none, some "push",
          some (.obj [("before", .str WebhookServer.zeroHash)])⟩).2 = []
    ∧ SlackApp.slackKickoffPosts ⟨some "U", some "T"⟩
        (some (.obj [("type", .str "event_callback"), ("channel", .str "X"),
          ("event", .obj [])])) = [] :=
  ⟨(at_most_one_kickoff_per_request (fun _ _ => "d") ⟨some "k", some "t", "U"⟩
      (.ok .null) ⟨"B", none, some "push",
        some (.obj [("before", .str WebhookServer.zeroHash)])⟩
      ⟨some "U", some "T"⟩
      (some (.obj [("type", .str "event_callback"), ("channel", .str "X"),
        ("event", .obj [])]))).1.2.2.2
      [("before", .str WebhookServer.zeroHash)] rfl (Or.inl rfl),
   (at_most_one_kickoff_per_request (fun _ _ => "d") ⟨some "k", some "t", "U"⟩
      (.ok .null) ⟨"B", none, some "push",
        some (.obj [("before", .str WebhookServer.zeroHash)])⟩
      ⟨some "U", some "T"⟩
      (some (.obj [("type", .str "event_callback"), ("channel", .str "X"),
        ("event", .obj [])]))).2.2.2
      [("type", .str "event_callback"), ("channel", .str "X"),
       ("event", .obj [])]
      (.str "X") rfl rfl (by decide)⟩
